import Mathlib

/-!
Shallow embedding of the reservation core of `src/mcpp.py` (Wellness Center
MCP server).  The persistent state is the single `appointments` SQLite table;
we model it as a list of rows plus the AUTOINCREMENT counter.  Tool-call
arguments arrive as a JSON object (a Python `dict`); we model it as an
association list from keys to string values, with `dict.get` returning
`Option`.  Python exceptions that escape a handler are modelled with `Except`:
`book_appointment` and `cancel_appointment` wrap their bodies in
`try/except Exception`, so a missing key there becomes a structured
`success = False` payload, while `check_availability` has no handler and an
`AttributeError`/`ValueError` there propagates past `execute_tool` (a server
fault).  `execute_tool` raising `HTTPException(404)` for an unknown tool is a
deliberate client error and is modelled as its own constructor.
-/

deriving instance DecidableEq for Except

/-- One row of the `appointments` table (`init_db`, src/mcpp.py lines 11-28). -/
structure Appointment where
  id : Nat
  patient_name : String
  phone_number : String
  appointment_date : String
  appointment_time : String
  appointment_type : String
  provider : String
  notes : String
deriving Repr, DecidableEq

/-- The database: AUTOINCREMENT next primary key and the stored rows. -/
structure DB where
  nextId : Nat
  rows : List Appointment
deriving Repr, DecidableEq

/-- A fresh database as created by `init_db`: no rows, ids start at 1. -/
def DB.empty : DB := { nextId := 1, rows := [] }

/-- The argument object of a tool call: a JSON object of string values. -/
def Params := List (String × String)

/-- Python `params.get(k)`: `some` value if the key is present, else `none`. -/
def getParam (p : Params) (k : String) : Option String :=
  (p.find? (fun kv => kv.1 == k)).map (fun kv => kv.2)

/-- Fold a digit list to its value; `none` if empty or a non-digit occurs. -/
def digitsVal (cs : List Char) : Option Nat :=
  if cs.isEmpty then none
  else cs.foldl
    (fun acc c =>
      match acc with
      | none => none
      | some n => if c.isDigit then some (n * 10 + (c.toNat - 48)) else none)
    (some 0)

/-- Whitespace as stripped by Python `int()` before parsing. -/
def isPySpace (c : Char) : Bool :=
  c == ' ' || c == '\t' || c == '\n' || c == '\r' || c == '\x0b' || c == '\x0c'

/-- Strip leading and trailing whitespace from a character list. -/
def stripWS (cs : List Char) : List Char :=
  ((cs.dropWhile isPySpace).reverse.dropWhile isPySpace).reverse

/-- Python `int(s)` on a string: strip whitespace, optional sign, then decimal
digits (`ValueError` = `none`).  Leading zeros are accepted, as in Python 3. -/
def pyInt (s : String) : Option Int :=
  match stripWS s.data with
  | '-' :: rest => (digitsVal rest).map (fun n => -(n : Int))
  | '+' :: rest => (digitsVal rest).map (fun n => (n : Int))
  | cs => (digitsVal cs).map (fun n => (n : Int))

/-- Python `s.split(':')[0]`: the characters before the first colon. -/
def beforeColon (s : String) : String :=
  String.mk (s.data.takeWhile (fun c => !(c == ':')))

/-- Python `f"{x}"` on an `Option String`: `None` prints as the text None. -/
def fmtOpt (o : Option String) : String :=
  match o with
  | none => "None"
  | some s => s

/-- Exceptions a handler body can raise in this program. -/
inductive PyExc
  | attributeError
  | valueError
deriving Repr, DecidableEq

/-- The JSON object returned by `check_availability` (lines 170-176). -/
structure AvailabilityResult where
  available : Bool
  message : String
  available_slots : List String
  provider : Option String
  appointment_type : Option String
deriving Repr, DecidableEq

/-- `check_availability` (src/mcpp.py lines 155-176).  Reads `date`, `time`,
`provider`, `appointment_type` with `dict.get`; builds
`[time, str(int(time.split(':')[0])+1)+":00", str(int(...)-1)+":00"]` and
always answers `available: True`.  A missing `time` raises `AttributeError`
(`None.split`), a non-numeric hour raises `ValueError` (`int`); neither is
caught. -/
def check_availability (params : Params) : Except PyExc AvailabilityResult :=
  let date := getParam params "date"
  let provider := getParam params "provider"
  let appointment_type := getParam params "appointment_type"
  match getParam params "time" with
  | none => .error .attributeError
  | some t =>
    match pyInt (beforeColon t) with
    | none => .error .valueError
    | some h =>
      .ok
        { available := true
          message := "Appointment with " ++ fmtOpt provider ++ " for " ++
            fmtOpt appointment_type ++ " is available on " ++ fmtOpt date
          available_slots := [t, toString (h + 1) ++ ":00", toString (h - 1) ++ ":00"]
          provider := provider
          appointment_type := appointment_type }

/-- Is the hour part of a slot string, read the way the code writes it, a
valid 24-hour clock hour (0-23)? -/
def hourInRange (slot : String) : Bool :=
  match pyInt (beforeColon slot) with
  | none => false
  | some h => 0 ≤ h && h ≤ 23

/-- A single-quote character, for Python `str(KeyError)` rendering. -/
def squote : String := String.mk [Char.ofNat 39]

/-- The JSON object returned by `book_appointment`: the success shape has
`appointment_id` and `confirmation_number`, the failure shape only a
message. -/
structure BookResponse where
  success : Bool
  appointment_id : Option Nat
  message : String
  confirmation_number : Option String
deriving Repr, DecidableEq

/-- Python `f"APT{n:04d}"`: zero-pad the id to width 4 after the tag. -/
def confirmationTag (n : Nat) : String :=
  let s := toString n
  "APT" ++ String.mk (List.replicate (4 - s.length) '0') ++ s

/-- The failure payload of `book_appointment` when `params[k]` raised
`KeyError(k)`: Python `str(e)` shows the key in single quotes. -/
def bookFail (k : String) : BookResponse :=
  { success := false
    appointment_id := none
    message := "Failed to book appointment: " ++ squote ++ k ++ squote
    confirmation_number := none }

/-- `book_appointment` (src/mcpp.py lines 178-214).  Subscripts the six
required keys in order (first missing one raises `KeyError`, caught by the
`except` and returned as `success: False`); `notes` defaults to `""`.  No
conflict check of any kind: the row is inserted unconditionally, and the
new row id (`cursor.lastrowid` of the AUTOINCREMENT key) is returned. -/
def book_appointment (params : Params) (db : DB) : BookResponse × DB :=
  match getParam params "patient_name" with
  | none => (bookFail "patient_name", db)
  | some nm =>
  match getParam params "phone_number" with
  | none => (bookFail "phone_number", db)
  | some ph =>
  match getParam params "appointment_date" with
  | none => (bookFail "appointment_date", db)
  | some d =>
  match getParam params "appointment_time" with
  | none => (bookFail "appointment_time", db)
  | some t =>
  match getParam params "appointment_type" with
  | none => (bookFail "appointment_type", db)
  | some ty =>
  match getParam params "provider" with
  | none => (bookFail "provider", db)
  | some pr =>
  let notes := (getParam params "notes").getD ""
  let row : Appointment :=
    { id := db.nextId, patient_name := nm, phone_number := ph
      appointment_date := d, appointment_time := t, appointment_type := ty
      provider := pr, notes := notes }
  ({ success := true
     appointment_id := some db.nextId
     message := "Appointment confirmed for " ++ nm ++ " with " ++ pr ++
       " on " ++ d ++ " at " ++ t ++ " for " ++ ty
     confirmation_number := some (confirmationTag db.nextId) },
   { nextId := db.nextId + 1, rows := db.rows ++ [row] })

/-- One service category of the static `get_services` payload. -/
structure ServiceEntry where
  type : String
  providers : List String
  duration : String
  description : String
deriving Repr, DecidableEq

/-- The full static payload of `get_services` (lines 216-255). -/
structure ServicesInfo where
  services : List ServiceEntry
  operating_hours : List (String × String)
  contact_info : List (String × String)
deriving Repr, DecidableEq

/-- `get_services` (src/mcpp.py lines 216-255): a literal constant; it opens
no database connection and reads no parameters. -/
def get_services : ServicesInfo :=
  { services :=
      [ { type := "Primary Care"
          providers := ["Dr. Smith", "Dr. Johnson", "Dr. Garcia"]
          duration := "30-60 minutes"
          description := "General health checkups, illness visits, follow-ups" },
        { type := "Dermatology"
          providers := ["Dr. Brown", "Dr. Davis"]
          duration := "45 minutes"
          description := "Skin conditions, mole checks, cosmetic consultations" },
        { type := "Physical Therapy"
          providers := ["Dr. Wilson", "Dr. Miller"]
          duration := "60 minutes"
          description := "Rehabilitation, injury recovery, mobility improvement" },
        { type := "Mental Health"
          providers := ["Dr. Taylor", "Dr. Anderson"]
          duration := "50 minutes"
          description := "Counseling, therapy sessions, mental wellness" } ]
    operating_hours :=
      [ ("weekdays", "8:00 AM - 5:00 PM"),
        ("saturdays", "9:00 AM - 12:00 PM"),
        ("sundays", "Closed") ]
    contact_info :=
      [ ("address", "123 Wellness Drive, Health City, HC 12345"),
        ("phone", "(555) 123-HEAL") ] }

/-- The JSON object returned by `cancel_appointment`. -/
structure CancelResponse where
  success : Bool
  message : String
deriving Repr, DecidableEq

/-- The DELETE's WHERE clause (lines 263-270): `patient_name`, `phone_number`
and `appointment_date` compared by SQLite TEXT equality (case-sensitive);
`provider` and `appointment_time` are not part of the match. -/
def matchesCancel (nm ph dt : String) (a : Appointment) : Bool :=
  a.patient_name == nm && a.phone_number == ph && a.appointment_date == dt

/-- The failure payload of `cancel_appointment` when `params[k]` raised
`KeyError(k)`. -/
def cancelFail (k : String) : CancelResponse :=
  { success := false
    message := "Failed to cancel appointment: " ++ squote ++ k ++ squote }

/-- `cancel_appointment` (src/mcpp.py lines 257-292).  Subscripts the three
keys in order (missing one: `KeyError`, caught and returned as
`success: False`); deletes every row matching the WHERE clause; answers
`success: True` with a narration if `cursor.rowcount > 0`, otherwise
`success: False` with "No appointment found matching those details".
The numeric count of deleted rows is not part of the response. -/
def cancel_appointment (params : Params) (db : DB) : CancelResponse × DB :=
  match getParam params "patient_name" with
  | none => (cancelFail "patient_name", db)
  | some nm =>
  match getParam params "phone_number" with
  | none => (cancelFail "phone_number", db)
  | some ph =>
  match getParam params "appointment_date" with
  | none => (cancelFail "appointment_date", db)
  | some dt =>
  let remaining := db.rows.filter (fun a => !(matchesCancel nm ph dt a))
  let deleted := db.rows.countP (fun a => matchesCancel nm ph dt a)
  if 0 < deleted then
    ({ success := true
       message := "Appointment for " ++ nm ++ " on " ++ dt ++ " has been cancelled" },
     { nextId := db.nextId, rows := remaining })
  else
    ({ success := false
       message := "No appointment found matching those details" },
     { nextId := db.nextId, rows := remaining })

/-- Errors visible at the `execute_tool` boundary: a deliberately raised
`HTTPException` (client error) or an uncaught Python exception that FastAPI
turns into a server fault. -/
inductive ExecError
  | httpException (status : Nat) (detail : String)
  | uncaught (e : PyExc)
deriving Repr, DecidableEq

/-- The successful payload of a dispatched tool call. -/
inductive ToolResponse
  | availability (r : AvailabilityResult)
  | booking (r : BookResponse)
  | services (r : ServicesInfo)
  | cancel (r : CancelResponse)
deriving Repr, DecidableEq

/-- `execute_tool` (src/mcpp.py lines 135-152): exact, case-sensitive
dispatch on the tool name over the four registered tools, passing the raw
parameter object through unchanged; every other name raises
`HTTPException(404, "Tool not found")`. -/
def execute_tool (tool_name : String) (params : Params) (db : DB) :
    Except ExecError ToolResponse × DB :=
  if tool_name = "check_availability" then
    match check_availability params with
    | .ok r => (.ok (.availability r), db)
    | .error e => (.error (.uncaught e), db)
  else if tool_name = "book_appointment" then
    let (r, db') := book_appointment params db
    (.ok (.booking r), db')
  else if tool_name = "get_services" then
    (.ok (.services get_services), db)
  else if tool_name = "cancel_appointment" then
    let (r, db') := cancel_appointment params db
    (.ok (.cancel r), db')
  else
    (.error (.httpException 404 "Tool not found"), db)

/-- Run a sequence of tool calls, threading the database state. -/
def runSeq (calls : List (String × Params)) (db : DB) : DB :=
  calls.foldl (fun d c => (execute_tool c.1 c.2 d).2) db

/-! ### Shared concrete fixtures (the spec's example booking, §8) -/

/-- The example booking arguments from the spec's testable properties. -/
def janeBook : Params :=
  [("patient_name", "Jane Doe"), ("phone_number", "+15551234567"),
   ("appointment_date", "2025-03-10"), ("appointment_time", "14:00"),
   ("appointment_type", "Primary Care"), ("provider", "Dr. Smith")]

/-- The matching availability query for the example booking. -/
def janeCheck : Params :=
  [("date", "2025-03-10"), ("time", "14:00"),
   ("provider", "Dr. Smith"), ("appointment_type", "Primary Care")]

/-- The matching cancel arguments for the example booking. -/
def janeCancel : Params :=
  [("patient_name", "Jane Doe"), ("phone_number", "+15551234567"),
   ("appointment_date", "2025-03-10")]

/-- The row inserted by booking `janeBook` on a fresh database. -/
def janeRow : Appointment :=
  { id := 1, patient_name := "Jane Doe", phone_number := "+15551234567"
    appointment_date := "2025-03-10", appointment_time := "14:00"
    appointment_type := "Primary Care", provider := "Dr. Smith", notes := "" }

/-- The database after booking `janeBook` on a fresh database. -/
def jane1DB : DB := { nextId := 2, rows := [janeRow] }

/-- The value `check_availability` returns for `janeCheck` (in any state). -/
def janeAvail : AvailabilityResult :=
  { available := true
    message := "Appointment with Dr. Smith for Primary Care is available on 2025-03-10"
    available_slots := ["14:00", "15:00", "13:00"]
    provider := some "Dr. Smith"
    appointment_type := some "Primary Care" }

/-- A well-formed availability query at the edge hour 00:00. -/
def midnightCheck : Params :=
  [("date", "2025-03-10"), ("time", "00:00"), ("provider", "Dr. Smith"),
   ("appointment_type", "Primary Care")]

/-- The value `check_availability` returns for `midnightCheck`. -/
def midnightAvail : AvailabilityResult :=
  { available := true
    message := "Appointment with Dr. Smith for Primary Care is available on 2025-03-10"
    available_slots := ["00:00", "1:00", "-1:00"]
    provider := some "Dr. Smith"
    appointment_type := some "Primary Care" }

/-- A second booking by the same patient on the same date, with a different
provider and time. -/
def brownRow : Appointment :=
  { id := 2, patient_name := "Jane Doe", phone_number := "+15551234567"
    appointment_date := "2025-03-10", appointment_time := "15:00"
    appointment_type := "Dermatology", provider := "Dr. Brown", notes := "" }

/-- A database holding both of Jane's bookings on 2025-03-10. -/
def jane2DB : DB := { nextId := 3, rows := [janeRow, brownRow] }

/-- Does a stored row occupy the example slot
(Dr. Smith, 2025-03-10, 14:00)? -/
def occupiesJaneSlot (a : Appointment) : Bool :=
  a.provider == "Dr. Smith" && a.appointment_date == "2025-03-10" &&
    a.appointment_time == "14:00"

/-! ### Helper lemmas about the handlers -/

/-- When all six required keys are present, `book_appointment` succeeds,
returns the current AUTOINCREMENT id and appends exactly one row. -/
theorem book_success (p : Params) (db : DB) (nm ph d t ty pr : String)
    (h1 : getParam p "patient_name" = some nm)
    (h2 : getParam p "phone_number" = some ph)
    (h3 : getParam p "appointment_date" = some d)
    (h4 : getParam p "appointment_time" = some t)
    (h5 : getParam p "appointment_type" = some ty)
    (h6 : getParam p "provider" = some pr) :
    book_appointment p db =
      ({ success := true
         appointment_id := some db.nextId
         message := "Appointment confirmed for " ++ nm ++ " with " ++ pr ++
           " on " ++ d ++ " at " ++ t ++ " for " ++ ty
         confirmation_number := some (confirmationTag db.nextId) },
       { nextId := db.nextId + 1
         rows := db.rows ++
           [{ id := db.nextId, patient_name := nm, phone_number := ph
              appointment_date := d, appointment_time := t
              appointment_type := ty, provider := pr
              notes := (getParam p "notes").getD "" }] }) := by
  simp only [book_appointment, h1, h2, h3, h4, h5, h6]

/-- `book_appointment` either fails at some key leaving the database
untouched, or succeeds on the current id, appending one row and bumping the
AUTOINCREMENT counter. -/
theorem book_cases (p : Params) (db : DB) :
    (∃ k, book_appointment p db = (bookFail k, db)) ∨
    ((book_appointment p db).1.appointment_id = some db.nextId ∧
     (book_appointment p db).2.nextId = db.nextId + 1 ∧
     ∃ row, (book_appointment p db).2.rows = db.rows ++ [row]) := by
  unfold book_appointment
  cases getParam p "patient_name" <;>
    cases getParam p "phone_number" <;>
    cases getParam p "appointment_date" <;>
    cases getParam p "appointment_time" <;>
    cases getParam p "appointment_type" <;>
    cases getParam p "provider" <;>
    first
      | exact Or.inl ⟨_, rfl⟩
      | exact Or.inr ⟨rfl, rfl, _, rfl⟩

/-- A successful book call hands out exactly the pre-call AUTOINCREMENT id,
and afterwards the counter is one larger. -/
theorem book_id_eq (p : Params) (db : DB) (i : Nat)
    (h : (book_appointment p db).1.appointment_id = some i) :
    i = db.nextId ∧ (book_appointment p db).2.nextId = db.nextId + 1 := by
  rcases book_cases p db with ⟨k, hk⟩ | ⟨hid, hnext, _⟩
  · rw [hk] at h
    simp [bookFail] at h
  · rw [hid] at h
    exact ⟨(Option.some_injective _ h).symm, hnext⟩

/-- `book_appointment` never decreases the AUTOINCREMENT counter. -/
theorem book_nextId_mono (p : Params) (db : DB) :
    db.nextId ≤ (book_appointment p db).2.nextId := by
  rcases book_cases p db with ⟨k, hk⟩ | ⟨_, hnext, _⟩
  · rw [hk]
  · omega

/-- `cancel_appointment` never changes the AUTOINCREMENT counter. -/
theorem cancel_nextId_eq (p : Params) (db : DB) :
    (cancel_appointment p db).2.nextId = db.nextId := by
  unfold cancel_appointment
  cases getParam p "patient_name" <;>
    cases getParam p "phone_number" <;>
    cases getParam p "appointment_date" <;>
    simp only
  split <;> rfl

/-- When the three keys are present, `cancel_appointment` keeps exactly the
rows that do not match the WHERE clause. -/
theorem cancel_rows_eq (p : Params) (db : DB) (nm ph dt : String)
    (h1 : getParam p "patient_name" = some nm)
    (h2 : getParam p "phone_number" = some ph)
    (h3 : getParam p "appointment_date" = some dt) :
    (cancel_appointment p db).2.rows =
      db.rows.filter (fun a => !(matchesCancel nm ph dt a)) := by
  simp only [cancel_appointment, h1, h2, h3]
  split <;> rfl

/-- When the three keys are present, `cancel_appointment` reports success
exactly when at least one row matched the WHERE clause. -/
theorem cancel_success_iff (p : Params) (db : DB) (nm ph dt : String)
    (h1 : getParam p "patient_name" = some nm)
    (h2 : getParam p "phone_number" = some ph)
    (h3 : getParam p "appointment_date" = some dt) :
    ((cancel_appointment p db).1.success = true ↔
      0 < db.rows.countP (fun a => matchesCancel nm ph dt a)) := by
  simp only [cancel_appointment, h1, h2, h3]
  split <;> rename_i hc <;> simp_all

/-- After deleting the matching rows, no row matching the predicate is left. -/
theorem countP_filter_not_eq_zero {α : Type} (m : α → Bool) (l : List α) :
    (l.filter (fun a => !(m a))).countP (fun a => m a) = 0 := by
  induction l with
  | nil => rfl
  | cons a l ih =>
    by_cases h : m a <;>
      simp [List.filter_cons, List.countP_cons, h, ih]

/-- Deleting the matching rows twice is the same as deleting them once. -/
theorem filter_not_idem {α : Type} (m : α → Bool) (l : List α) :
    (l.filter (fun a => !(m a))).filter (fun a => !(m a)) =
      l.filter (fun a => !(m a)) := by
  induction l with
  | nil => rfl
  | cons a l ih =>
    by_cases h : m a <;>
      simp [List.filter_cons, h, ih]

/-- The rows kept by a DELETE plus the rows it removed account for the whole
table. -/
theorem length_filter_not_add_countP {α : Type} (m : α → Bool) (l : List α) :
    (l.filter (fun a => !(m a))).length + l.countP (fun a => m a) = l.length := by
  induction l with
  | nil => rfl
  | cons a l ih =>
    by_cases h : m a <;>
      simp [List.filter_cons, List.countP_cons, h] <;>
      omega

/-- No dispatched tool call ever decreases the AUTOINCREMENT counter. -/
theorem execute_tool_nextId_mono (tn : String) (p : Params) (db : DB) :
    db.nextId ≤ (execute_tool tn p db).2.nextId := by
  unfold execute_tool
  split
  · split <;> simp
  · split
    · rename_i heq
      split
      · rename_i r db' hbook
        have := book_nextId_mono p db
        rw [hbook] at this
        simpa using this
    · split
      · simp
      · split
        · rename_i heq2
          split
          · rename_i r db' hcan
            have := cancel_nextId_eq p db
            rw [hcan] at this
            simp at this ⊢
            omega
        · simp

/-- Running any sequence of tool calls never decreases the AUTOINCREMENT
counter. -/
theorem runSeq_nextId_mono (calls : List (String × Params)) (db : DB) :
    db.nextId ≤ (runSeq calls db).nextId := by
  induction calls generalizing db with
  | nil => exact Nat.le_refl _
  | cons c cs ih =>
    exact Nat.le_trans (execute_tool_nextId_mono c.1 c.2 db)
      (ih (execute_tool c.1 c.2 db).2)

/-! ### Claim C1 -/

/-- Claim C1 as stated is false: `book_appointment` never checks the ledger.
Booking the example slot twice with identical fields succeeds both times,
leaving two active reservations with the same (resource, date, time)
triple. -/
theorem c1_counterexample :
    (book_appointment janeBook DB.empty).1.success = true ∧
    (book_appointment janeBook (book_appointment janeBook DB.empty).2).1.success = true ∧
    (book_appointment janeBook (book_appointment janeBook DB.empty).2).2.rows.countP
      occupiesJaneSlot = 2 := by
  decide

/-- Claim C1 (amended): the ledger does not enforce uniqueness of the
(resource, date, time) triple.  `book_appointment` performs no conflict
check and has no `SlotTaken` outcome: a book call with all required fields,
whose triple equals that of a reservation already in the ledger, succeeds
anyway and inserts one more row, so two book calls with identical fields
both succeed. -/
theorem c1_no_conflict_check (p : Params) (db : DB) (nm ph d t ty pr : String)
    (a : Appointment)
    (h1 : getParam p "patient_name" = some nm)
    (h2 : getParam p "phone_number" = some ph)
    (h3 : getParam p "appointment_date" = some d)
    (h4 : getParam p "appointment_time" = some t)
    (h5 : getParam p "appointment_type" = some ty)
    (h6 : getParam p "provider" = some pr)
    (ha : a ∈ db.rows) (hres : a.provider = pr)
    (hdate : a.appointment_date = d) (htime : a.appointment_time = t) :
    (book_appointment p db).1.success = true ∧
    (book_appointment p db).2.rows.length = db.rows.length + 1 := by
  rw [book_success p db nm ph d t ty pr h1 h2 h3 h4 h5 h6]
  simp

/-- Concrete instance of `c1_no_conflict_check`: re-booking the example slot
over a database that already holds it. -/
theorem c1_witness :
    (book_appointment janeBook jane1DB).1.success = true ∧
    (book_appointment janeBook jane1DB).2.rows.length = jane1DB.rows.length + 1 :=
  c1_no_conflict_check janeBook jane1DB "Jane Doe" "+15551234567" "2025-03-10"
    "14:00" "Primary Care" "Dr. Smith" janeRow (by decide) (by decide) (by decide)
    (by decide) (by decide) (by decide) (by decide) (by decide) (by decide) (by decide)

/-! ### Claim C2 -/

/-- Claim C2 as stated is false: after a successful book of the example
slot the ledger holds one active reservation for the triple, yet
`check_availability` on the same triple still reports `available = true`. -/
theorem c2_counterexample :
    (book_appointment janeBook DB.empty).2 = jane1DB ∧
    jane1DB.rows.countP occupiesJaneSlot = 1 ∧
    (execute_tool "check_availability" janeCheck jane1DB).1 =
      .ok (.availability janeAvail) ∧
    janeAvail.available = true := by
  decide

/-- Claim C2 (amended): `check_availability` never consults the ledger at
all — its result is identical in any two database states and it leaves the
state unchanged — and whenever it returns it reports `available = true`,
regardless of existing reservations. -/
theorem c2_check_ignores_ledger (p : Params) (db₁ db₂ : DB) :
    (execute_tool "check_availability" p db₁).1 =
      (execute_tool "check_availability" p db₂).1 ∧
    (execute_tool "check_availability" p db₁).2 = db₁ ∧
    (∀ r, check_availability p = .ok r → r.available = true) := by
  refine ⟨?_, ?_, ?_⟩
  · unfold execute_tool
    cases check_availability p <;> rfl
  · unfold execute_tool
    cases check_availability p <;> rfl
  · intro r hr
    unfold check_availability at hr
    split at hr
    · exact absurd hr (by simp)
    · split at hr
      · exact absurd hr (by simp)
      · injection hr with h
        rw [← h]

/-- Concrete instance of `c2_check_ignores_ledger` at the example query. -/
theorem c2_witness : janeAvail.available = true :=
  (c2_check_ignores_ledger janeCheck DB.empty jane1DB).2.2 janeAvail (by decide)

/-! ### Claim C3 -/

/-- Claim C3 as stated is false: an availability request missing its `time`
field is not answered with a structured failure — the handler raises an
uncaught `AttributeError` (`None.split`), which escapes the dispatcher as a
server fault. -/
theorem c3_counterexample :
    execute_tool "check_availability"
      [("date", "2025-03-10"), ("provider", "Dr. Smith"),
       ("appointment_type", "Primary Care")] DB.empty =
      (.error (.uncaught .attributeError), DB.empty) := by
  decide

/-- Claim C3 (amended): there is no validation layer and no
`MalformedRequest` result.  `book_appointment` and `cancel_appointment`
catch their own `KeyError` and return a structured `success = false`
payload without touching the database, but `check_availability` with a
missing `time` raises an uncaught exception past the dispatcher — a server
fault. -/
theorem c3_missing_field_behavior (p q c : Params) (db : DB)
    (hb : getParam p "patient_name" = none)
    (ht : getParam q "time" = none)
    (hc : getParam c "patient_name" = none) :
    execute_tool "book_appointment" p db = (.ok (.booking (bookFail "patient_name")), db) ∧
    (execute_tool "check_availability" q db).1 = .error (.uncaught .attributeError) ∧
    execute_tool "cancel_appointment" c db = (.ok (.cancel (cancelFail "patient_name")), db) := by
  have hbook : book_appointment p db = (bookFail "patient_name", db) := by
    simp only [book_appointment, hb]
  have hcan : cancel_appointment c db = (cancelFail "patient_name", db) := by
    simp only [cancel_appointment, hc]
  have hchk : check_availability q = .error .attributeError := by
    simp only [check_availability, ht]
  refine ⟨?_, ?_, ?_⟩
  · unfold execute_tool
    rw [if_neg (by decide), if_pos rfl, hbook]
  · unfold execute_tool
    rw [if_pos rfl, hchk]
  · unfold execute_tool
    rw [if_neg (by decide), if_neg (by decide), if_neg (by decide), if_pos rfl, hcan]

/-- Concrete instance of `c3_missing_field_behavior` on a fresh database. -/
theorem c3_witness :
    execute_tool "book_appointment" [("phone_number", "+15551234567")] DB.empty =
      (.ok (.booking (bookFail "patient_name")), DB.empty) ∧
    (execute_tool "check_availability" [("date", "2025-03-10")] DB.empty).1 =
      .error (.uncaught .attributeError) ∧
    execute_tool "cancel_appointment" [] DB.empty =
      (.ok (.cancel (cancelFail "patient_name")), DB.empty) :=
  c3_missing_field_behavior [("phone_number", "+15551234567")]
    [("date", "2025-03-10")] [] DB.empty (by decide) (by decide) (by decide)

/-- When the three keys are present but nothing matches, `cancel_appointment`
returns the "nothing to cancel" payload and removes no row. -/
theorem cancel_zero_matches (p : Params) (db : DB) (nm ph dt : String)
    (h1 : getParam p "patient_name" = some nm)
    (h2 : getParam p "phone_number" = some ph)
    (h3 : getParam p "appointment_date" = some dt)
    (hz : db.rows.countP (fun a => matchesCancel nm ph dt a) = 0) :
    cancel_appointment p db =
      ({ success := false, message := "No appointment found matching those details" },
       { nextId := db.nextId,
         rows := db.rows.filter (fun a => !(matchesCancel nm ph dt a)) }) := by
  simp only [cancel_appointment, h1, h2, h3]
  rw [if_neg (by rw [hz]; omega)]

/-! ### Claim C4 -/

/-- Claim C4 (confirmed): with one matching booking in the ledger, `cancel`
succeeds and removes exactly that one row; immediately repeating the same
cancel is a normal "nothing to cancel" outcome — `success = false` with the
explanatory message — that changes nothing and is not a failure of the
system. -/
theorem c4_cancel_idempotent (p : Params) (nm ph dt : String) (db : DB)
    (h1 : getParam p "patient_name" = some nm)
    (h2 : getParam p "phone_number" = some ph)
    (h3 : getParam p "appointment_date" = some dt)
    (hone : db.rows.countP (fun a => matchesCancel nm ph dt a) = 1) :
    (cancel_appointment p db).1.success = true ∧
    (cancel_appointment p db).2.rows.length + 1 = db.rows.length ∧
    (cancel_appointment p ((cancel_appointment p db).2)).1 =
      { success := false, message := "No appointment found matching those details" } ∧
    (cancel_appointment p ((cancel_appointment p db).2)).2 =
      (cancel_appointment p db).2 := by
  have hrows := cancel_rows_eq p db nm ph dt h1 h2 h3
  have hsucc := cancel_success_iff p db nm ph dt h1 h2 h3
  have hz : ((cancel_appointment p db).2).rows.countP
      (fun a => matchesCancel nm ph dt a) = 0 := by
    rw [hrows]
    exact countP_filter_not_eq_zero _ _
  have h0 := cancel_zero_matches p ((cancel_appointment p db).2) nm ph dt h1 h2 h3 hz
  have hidem : ((cancel_appointment p db).2).rows.filter
      (fun a => !(matchesCancel nm ph dt a)) = ((cancel_appointment p db).2).rows := by
    rw [hrows]
    exact filter_not_idem _ _
  refine ⟨hsucc.mpr (by omega), ?_, ?_, ?_⟩
  · rw [hrows]
    have := length_filter_not_add_countP (fun a => matchesCancel nm ph dt a) db.rows
    omega
  · rw [h0]
  · rw [h0, hidem]

/-- Concrete instance of `c4_cancel_idempotent`: cancelling Jane's single
booking and then cancelling again. -/
theorem c4_witness :
    (cancel_appointment janeCancel jane1DB).1.success = true ∧
    (cancel_appointment janeCancel jane1DB).2.rows.length + 1 = jane1DB.rows.length ∧
    (cancel_appointment janeCancel ((cancel_appointment janeCancel jane1DB).2)).1 =
      { success := false, message := "No appointment found matching those details" } ∧
    (cancel_appointment janeCancel ((cancel_appointment janeCancel jane1DB).2)).2 =
      (cancel_appointment janeCancel jane1DB).2 :=
  c4_cancel_idempotent janeCancel "Jane Doe" "+15551234567" "2025-03-10" jane1DB
    (by decide) (by decide) (by decide) (by decide)

/-! ### Claim C5 -/

/-- Claim C5 as stated is false: a book call that omits `patient_name` is
not given a placeholder name — the handler returns `success = false` with
the caught `KeyError` text, and nothing is inserted. -/
theorem c5_counterexample :
    execute_tool "book_appointment"
      [("phone_number", "+15551234567"), ("appointment_date", "2025-03-10"),
       ("appointment_time", "14:00"), ("appointment_type", "Primary Care"),
       ("provider", "Dr. Smith")] DB.empty =
      (.ok (.booking (bookFail "patient_name")), DB.empty) := by
  decide

/-- Claim C5 (amended): the dispatch layer neither rejects nor substitutes
missing required parameters — it passes the raw argument object through
untouched — and the handler then fails with a structured `success = false`
result (the caught `KeyError`) rather than proceeding with a default.  The
only defaulted field is the optional `notes`, which becomes the empty
string. -/
theorem c5_no_default_substitution (p q : Params) (db : DB)
    (nm ph d t ty pr : String)
    (hp : getParam p "patient_name" = none)
    (hn1 : getParam q "patient_name" = some nm)
    (hn2 : getParam q "phone_number" = some ph)
    (hn3 : getParam q "appointment_date" = some d)
    (hn4 : getParam q "appointment_time" = some t)
    (hn5 : getParam q "appointment_type" = some ty)
    (hn6 : getParam q "provider" = some pr)
    (hnotes : getParam q "notes" = none) :
    execute_tool "book_appointment" p db =
      (.ok (.booking (bookFail "patient_name")), db) ∧
    (book_appointment q db).2.rows = db.rows ++
      [{ id := db.nextId, patient_name := nm, phone_number := ph
         appointment_date := d, appointment_time := t, appointment_type := ty
         provider := pr, notes := "" }] := by
  constructor
  · have hbook : book_appointment p db = (bookFail "patient_name", db) := by
      simp only [book_appointment, hp]
    unfold execute_tool
    rw [if_neg (by decide), if_pos rfl, hbook]
  · rw [book_success q db nm ph d t ty pr hn1 hn2 hn3 hn4 hn5 hn6, hnotes]
    rfl

/-- Concrete instance of `c5_no_default_substitution`. -/
theorem c5_witness :
    execute_tool "book_appointment" [("phone_number", "+15551234567")] DB.empty =
      (.ok (.booking (bookFail "patient_name")), DB.empty) ∧
    (book_appointment janeBook DB.empty).2.rows = DB.empty.rows ++ [janeRow] :=
  c5_no_default_substitution [("phone_number", "+15551234567")] janeBook DB.empty
    "Jane Doe" "+15551234567" "2025-03-10" "14:00" "Primary Care" "Dr. Smith"
    (by decide) (by decide) (by decide) (by decide) (by decide) (by decide)
    (by decide) (by decide)

/-! ### Claim C6 -/

/-- Claim C6 as stated is false: for the well-formed request at 00:00 the
suggested slots are 1:00 and -1:00 — the second offset is not clamped to
the 0-23 range. -/
theorem c6_counterexample :
    check_availability midnightCheck = .ok midnightAvail ∧
    midnightAvail.available_slots = ["00:00", "1:00", "-1:00"] ∧
    hourInRange "-1:00" = false := by
  decide

/-- Claim C6 (amended): for every availability request whose `time` has a
parsable hour h, the call never raises and the slot list is exactly the
requested time followed by the two offsets (h+1):00 and (h-1):00, computed
with no clamping — so they can fall outside the 0-23 range (24:00, -1:00). -/
theorem c6_slots_unclamped (p : Params) (t : String) (h : Int)
    (ht : getParam p "time" = some t)
    (hh : pyInt (beforeColon t) = some h) :
    check_availability p =
      .ok { available := true
            message := "Appointment with " ++ fmtOpt (getParam p "provider") ++
              " for " ++ fmtOpt (getParam p "appointment_type") ++
              " is available on " ++ fmtOpt (getParam p "date")
            available_slots :=
              [t, toString (h + 1) ++ ":00", toString (h - 1) ++ ":00"]
            provider := getParam p "provider"
            appointment_type := getParam p "appointment_type" } := by
  simp only [check_availability, ht, hh]

/-- Concrete instance of `c6_slots_unclamped` at the edge hour 23:00: the
offset suggestion 24:00 is produced, outside the 0-23 range. -/
theorem c6_witness :
    check_availability [("time", "23:00")] =
      .ok { available := true
            message := "Appointment with None for None is available on None"
            available_slots := ["23:00", "24:00", "22:00"]
            provider := none
            appointment_type := none } :=
  c6_slots_unclamped [("time", "23:00")] "23:00" 23 (by decide) (by decide)

/-! ### Claim C7 -/

/-- Claim C7 as stated is false on its last conjunct: the response of
`cancel_appointment` does not carry the count removed.  Cancelling Jane's
bookings removes one row from `jane1DB` but two rows from `jane2DB` (her
two bookings on the same date under different providers), yet the two
responses are identical, so no count is returned. -/
theorem c7_counterexample :
    (cancel_appointment janeCancel jane1DB).1 =
      (cancel_appointment janeCancel jane2DB).1 ∧
    jane1DB.rows.length - (cancel_appointment janeCancel jane1DB).2.rows.length = 1 ∧
    jane2DB.rows.length - (cancel_appointment janeCancel jane2DB).2.rows.length = 2 := by
  decide

/-- Claim C7 (amended): `cancel` removes exactly the set of active
reservations whose subject name, contact and date are case-sensitively
equal to the arguments — regardless of resource and time, so several
bookings on one date under different providers all go at once — keeps the
id counter, and reports `success = true` precisely when at least one row
was removed; the numeric count itself is not part of the response. -/
theorem c7_cancel_scope (p : Params) (db : DB) (nm ph dt : String)
    (h1 : getParam p "patient_name" = some nm)
    (h2 : getParam p "phone_number" = some ph)
    (h3 : getParam p "appointment_date" = some dt) :
    (cancel_appointment p db).2.rows =
      db.rows.filter (fun a => !(matchesCancel nm ph dt a)) ∧
    (cancel_appointment p db).2.nextId = db.nextId ∧
    ((cancel_appointment p db).1.success = true ↔
      0 < db.rows.countP (fun a => matchesCancel nm ph dt a)) :=
  ⟨cancel_rows_eq p db nm ph dt h1 h2 h3,
   cancel_nextId_eq p db,
   cancel_success_iff p db nm ph dt h1 h2 h3⟩

/-- Concrete instance of `c7_cancel_scope` on the two-booking database:
both of Jane's bookings (different providers and times) are removed by the
one call. -/
theorem c7_witness :
    (cancel_appointment janeCancel jane2DB).2.rows =
      jane2DB.rows.filter
        (fun a => !(matchesCancel "Jane Doe" "+15551234567" "2025-03-10" a)) ∧
    (cancel_appointment janeCancel jane2DB).2.nextId = jane2DB.nextId ∧
    ((cancel_appointment janeCancel jane2DB).1.success = true ↔
      0 < jane2DB.rows.countP
        (fun a => matchesCancel "Jane Doe" "+15551234567" "2025-03-10" a)) :=
  c7_cancel_scope janeCancel jane2DB "Jane Doe" "+15551234567" "2025-03-10"
    (by decide) (by decide) (by decide)

/-! ### Claim C8 -/

/-- Claim C8 (confirmed): confirmation ids are strictly increasing across
successful book calls within a process lifetime.  If a book call succeeds
with id `i`, then after any further sequence of dispatched tool calls a
later successful book call is assigned an id `j` with `i < j`: a success
hands out exactly the AUTOINCREMENT counter, which every success bumps and
no tool call ever decreases. -/
theorem c8_ids_strictly_increasing (p₁ p₂ : Params) (db : DB)
    (calls : List (String × Params)) (i j : Nat)
    (h₁ : (book_appointment p₁ db).1.appointment_id = some i)
    (h₂ : (book_appointment p₂
      (runSeq calls (book_appointment p₁ db).2)).1.appointment_id = some j) :
    i < j := by
  obtain ⟨hi, hnext⟩ := book_id_eq p₁ db i h₁
  obtain ⟨hj, _⟩ := book_id_eq p₂ _ j h₂
  have hmono := runSeq_nextId_mono calls (book_appointment p₁ db).2
  omega

/-- Concrete instance of `c8_ids_strictly_increasing`: the first booking
gets id 1; after a `get_services` call in between, re-booking gets id 2. -/
theorem c8_witness :
    (book_appointment janeBook DB.empty).1.appointment_id = some 1 ∧ (1 : Nat) < 2 :=
  ⟨by decide,
   c8_ids_strictly_increasing janeBook janeBook DB.empty
     [("get_services", ([] : Params))] 1 2 (by decide) (by decide)⟩

/-! ### Claim C9 -/

/-- Claim C9 (confirmed): any tool name that is not an exact, case-sensitive
match of one of the four registered tools is dispatched to no handler:
`execute_tool` fails with the 404 "Tool not found" client error and the
database state is unchanged. -/
theorem c9_unknown_tool (tn : String) (p : Params) (db : DB)
    (hc : tn ≠ "check_availability") (hb : tn ≠ "book_appointment")
    (hg : tn ≠ "get_services") (hx : tn ≠ "cancel_appointment") :
    execute_tool tn p db = (.error (.httpException 404 "Tool not found"), db) := by
  unfold execute_tool
  rw [if_neg hc, if_neg hb, if_neg hg, if_neg hx]

/-- Concrete instance of `c9_unknown_tool`, the spec's own example
`dispatch("unknown_tool", {})`; note the lookup is case-sensitive, so even
`GET_SERVICES` would take this branch. -/
theorem c9_witness :
    "unknown_tool" ≠ "check_availability" ∧
    execute_tool "unknown_tool" [] DB.empty =
      (.error (.httpException 404 "Tool not found"), DB.empty) :=
  ⟨by decide,
   c9_unknown_tool "unknown_tool" [] DB.empty
     (by decide) (by decide) (by decide) (by decide)⟩

/-! ### Claim C10 -/

/-- Claim C10 (confirmed): `get_services` is a constant function.  In any
two ledger states (and for any two argument objects) the dispatched call
returns the identical structure — the literal payload with its four service
categories, operating hours and contact info — and never reads or mutates
the reservation store. -/
theorem c10_get_services_constant (p₁ p₂ : Params) (db₁ db₂ : DB) :
    (execute_tool "get_services" p₁ db₁).1 = (execute_tool "get_services" p₂ db₂).1 ∧
    (execute_tool "get_services" p₁ db₁).1 = .ok (.services get_services) ∧
    (execute_tool "get_services" p₁ db₁).2 = db₁ ∧
    get_services.services.length = 4 := by
  refine ⟨rfl, rfl, rfl, rfl⟩
